import Mathlib

/-!
Shallow embedding of `src/src/chaos_framework.py` (chaos engineering framework
for databases).  Wall-clock time is modelled as a natural-number millisecond
counter that every timed operation advances by an environment-supplied amount;
database calls that may fail (query execution, opening a connection) take their
outcome from an environment record, one field per call site.  Client-local
operations on an already-open session (`conn.cursor()`, `cursor.close()`) are
modelled as pure.  Each injector run additionally records an instrumentation
trace of the order in which it touches its Experiment record and performs
database side effects, so that ordering properties ("startTime is set before
any side effect", "result is assigned exactly once") can be stated.
-/

namespace Chaos

/-- Experiment record, mirroring class `ChaosExperiment`
(`chaos_framework.py` lines 19-29).  `result` keeps the source's string
values `"completed"` / `"failed"`; `none` models Python `None`. -/
structure Experiment where
  name : String
  description : String
  blast_radius : String
  start_time : Option Nat
  end_time : Option Nat
  result : Option String
  observations : List String
deriving DecidableEq

/-- Instrumentation events recorded, in order, while one injector runs:
assignments to the Experiment's fields and database side effects
(queries sent to the server, connections opened or closed). -/
inductive Event where
  | setStart : Nat → Event
  | dbEffect : String → Event
  | appendObs : String → Event
  | setResult : String → Event
  | setEnd : Nat → Event
deriving DecidableEq

/-- Running state of one injector call: the Experiment being built, the
millisecond clock, the target's active-connection count, and the
instrumentation trace of this run (initially empty). -/
structure St where
  exp : Experiment
  clock : Nat
  conns : Nat
  trace : List Event
deriving DecidableEq

/-- Baseline metrics dict built by `capture_baseline` (lines 90-94). -/
structure BaselineMetrics where
  query_latency_ms : ℚ
  active_connections : Nat
  timestamp : Nat
deriving DecidableEq

/-- The framework state the injectors touch: the experiment list and the
baseline dict.  `baseline = none` models `self.baseline_metrics = {}`,
i.e. the key `query_latency_ms` being absent. -/
structure Framework where
  experiments : List Experiment
  baseline : Option BaselineMetrics
deriving DecidableEq

/-- A freshly constructed `ChaosExperiment` (constructor, lines 22-29). -/
def freshExp (n d b : String) : Experiment :=
  { name := n, description := d, blast_radius := b,
    start_time := none, end_time := none, result := none, observations := [] }

/-- Initial state of one injector run. -/
def stInit (e : Experiment) (clock conns : Nat) : St :=
  { exp := e, clock := clock, conns := conns, trace := [] }

/-- `experiment.start_time = datetime.now()`. -/
def setStartNow (s : St) : St :=
  { s with exp := { s.exp with start_time := some s.clock },
           trace := s.trace ++ [Event.setStart s.clock] }

/-- `experiment.end_time = datetime.now()`. -/
def setEndNow (s : St) : St :=
  { s with exp := { s.exp with end_time := some s.clock },
           trace := s.trace ++ [Event.setEnd s.clock] }

/-- `experiment.result = r`. -/
def setRes (r : String) (s : St) : St :=
  { s with exp := { s.exp with result := some r },
           trace := s.trace ++ [Event.setResult r] }

/-- `experiment.observations.append(o)`. -/
def obs (o : String) (s : St) : St :=
  { s with exp := { s.exp with observations := s.exp.observations ++ [o] },
           trace := s.trace ++ [Event.appendObs o] }

/-- `time.sleep`: advances the clock only (no database side effect). -/
def sleepMs (d : Nat) (s : St) : St :=
  { s with clock := s.clock + d }

/-- A query sent to the database server, taking `d` milliseconds (an
attempted query is a database side effect whether or not it errors). -/
def dbOp (what : String) (d : Nat) (s : St) : St :=
  { s with clock := s.clock + d, trace := s.trace ++ [Event.dbEffect what] }

/-- A successful `psycopg2.connect`: one more active connection. -/
def openConn (d : Nat) (s : St) : St :=
  { s with clock := s.clock + d, conns := s.conns + 1,
           trace := s.trace ++ [Event.dbEffect "connect"] }

/-- `conn.close()` on a held connection. -/
def closeConn (s : St) : St :=
  { s with conns := s.conns - 1, trace := s.trace ++ [Event.dbEffect "close"] }

/-- The sequence of values assigned to `experiment.result`, in order. -/
def resultsSet : List Event → List String
  | [] => []
  | Event.setResult r :: t => r :: resultsSet t
  | _ :: t => resultsSet t

/-- `true` iff no database side effect occurs before the first
`start_time` assignment in the trace. -/
def noEffectBeforeStart : List Event → Bool
  | [] => true
  | Event.setStart _ :: _ => true
  | Event.dbEffect _ :: _ => false
  | _ :: t => noEffectBeforeStart t

/-- Environment of one `inject_high_cpu_load` run: outcome and duration of
the CROSS JOIN query (lines 116-121), and the exception text on failure. -/
structure CpuEnv where
  queryOk : Bool
  queryTime : Nat
  errMsg : String

/-- Result of an injector run: final state and updated framework. -/
structure RunOut where
  st : St
  fw : Framework

/-- `inject_high_cpu_load` (lines 99-137).  The expensive query is attempted
inside `try`; on success an observation and `result = "completed"` are
recorded, on exception an `Error:` observation and `result = "failed"`;
`end_time` is then set and the experiment appended. -/
def inject_high_cpu_load (env : CpuEnv) (fw : Framework) (clock conns : Nat) : RunOut :=
  let s0 := setStartNow (stInit
    (freshExp "High CPU Load" "Simulate CPU saturation with expensive queries" "database")
    clock conns)
  let s1 := dbOp "cross join count query" env.queryTime s0
  let s2 :=
    if env.queryOk then
      setRes "completed" (obs "CPU-intensive query executed" s1)
    else
      setRes "failed" (obs ("Error: " ++ env.errMsg) s1)
  let s3 := setEndNow s2
  ⟨s3, { fw with experiments := fw.experiments ++ [s3.exp] }⟩

/-- Environment of one `inject_connection_saturation` run: outcome and
duration of the i-th `psycopg2.connect` in the acquisition loop
(lines 156-161), outcome and duration of the extra probe connection
(lines 170-175), and the exception text when acquisition fails. -/
structure SatEnv where
  connectOk : Nat → Bool
  connectTime : Nat → Nat
  probeOk : Bool
  probeTime : Nat
  errMsg : String

/-- The acquisition loop `for i in range(max_connections)` (lines 156-161):
`k` connects remain, `i` is the current index.  Returns the state, how many
connections were opened, and whether the whole loop succeeded; the first
failing connect raises, aborting the loop (the exception is handled by the
caller's `except`). -/
def satAcquire (env : SatEnv) : Nat → Nat → St → St × Nat × Bool
  | 0, _, s => (s, 0, true)
  | k + 1, i, s =>
    if env.connectOk i then
      let r := satAcquire env k (i + 1) (openConn (env.connectTime i) s)
      (r.1, r.2.1 + 1, r.2.2)
    else
      (dbOp "failed connect attempt" (env.connectTime i) s, 0, false)

/-- The `finally` cleanup `for conn in connections: conn.close()`
(lines 186-189): closes `n` held connections. -/
def closeMany : Nat → St → St
  | 0, s => s
  | n + 1, s => closeMany n (closeConn s)

/-- Start state of `inject_connection_saturation` (lines 142-148): the
constructed Experiment with `start_time` assigned.  The method acquires up to 10
sessions; on full acquisition it observes the count, holds the sessions for
2 s, probes one extra connection inside a nested bare `except` (a successful
probe is closed at once), and sets `result = "completed"`; a failing connect
in the loop is caught by the outer `except`, which records an `Error:`
observation and `result = "failed"`.  The `finally` block then closes every
held session, and `end_time` is set after the `try` statement. -/
def satStart (clock conns : Nat) : St :=
  setStartNow (stInit
    (freshExp "Connection Saturation" "Exhaust available database connections" "connection_pool")
    clock conns)

/-- `inject_connection_saturation` (lines 139-196), continuing from
`satStart`: the acquisition loop, the hold-and-probe phase or the exception
handler, the `finally` cleanup, and the epilogue. -/
def inject_connection_saturation (env : SatEnv) (fw : Framework) (clock conns : Nat) : RunOut :=
  let r := satAcquire env 10 0 (satStart clock conns)
  let s2 :=
    if r.2.2 then
      let sa := obs ("Created " ++ toString r.2.1 ++ " connections") r.1
      let sb := sleepMs 2000 sa
      let sc :=
        if env.probeOk then
          obs "Additional connection succeeded" (closeConn (openConn env.probeTime sb))
        else
          obs "Additional connection blocked (expected)" (dbOp "failed probe connect" env.probeTime sb)
      setRes "completed" sc
    else
      setRes "failed" (obs ("Error: " ++ env.errMsg) r.1)
  let s3 := closeMany r.2.1 s2
  let s4 := setEndNow s3
  ⟨s4, { fw with experiments := fw.experiments ++ [s4.exp] }⟩

/-- Environment of one `inject_slow_queries` run: outcome and duration of
the `pg_sleep(2)` query (line 215), outcome and duration of the follow-up
`COUNT(*)` query whose elapsed time is the measured latency (lines 219-222),
and the exception text for a query error. -/
structure SlowEnv where
  sleepOk : Bool
  sleepTime : Nat
  countOk : Bool
  countTime : Nat
  errMsg : String

/-- Result of an `inject_slow_queries` run; `deg` instruments the local
variable `degradation` (lines 227-228), `none` when the exception path ran
before it was computed. -/
structure SlowOut where
  st : St
  fw : Framework
  deg : Option ℚ

/-- Shared exit code of `inject_slow_queries` (lines 237-244): close the
cursor, set `end_time`, append the experiment. -/
def slowFinish (fw : Framework) (d : Option ℚ) (s : St) : SlowOut :=
  let s2 := setEndNow s
  ⟨s2, { fw with experiments := fw.experiments ++ [s2.exp] }, d⟩

/-- The `except Exception` handler of `inject_slow_queries` (lines 233-235):
records an `Error:` observation and `result = "failed"`. -/
def slowFail (fw : Framework) (msg : String) (s : St) : SlowOut :=
  slowFinish fw none (setRes "failed" (obs ("Error: " ++ msg) s))

/-- `inject_slow_queries` (lines 198-244).  Runs `pg_sleep(2)`, measures the
latency of a `COUNT(*)` query, appends the during-chaos latency observation,
then reads `self.baseline_metrics["query_latency_ms"]`: an absent key raises
`KeyError` into the handler; a zero baseline raises `ZeroDivisionError` at
the degradation computation; otherwise the degradation percentage is
computed, observed, and `result = "completed"` is set. -/
def inject_slow_queries (env : SlowEnv) (fw : Framework) (clock conns : Nat) : SlowOut :=
  let s0 := setStartNow (stInit
    (freshExp "Slow Query Injection" "Simulate database performance degradation" "query_performance")
    clock conns)
  let s1 := dbOp "pg sleep query" env.sleepTime s0
  if env.sleepOk then
    let s2 := dbOp "count query" env.countTime s1
    if env.countOk then
      let latency : ℚ := (env.countTime : ℚ)
      let s3 := obs ("Query latency during chaos: " ++ toString latency ++ "ms") s2
      match fw.baseline with
      | none => slowFail fw "query_latency_ms" s3
      | some b =>
        let s4 := obs ("Baseline latency: " ++ toString b.query_latency_ms ++ "ms") s3
        if b.query_latency_ms = 0 then
          slowFail fw "float division by zero" s4
        else
          let degradation : ℚ := (latency - b.query_latency_ms) / b.query_latency_ms * 100
          let s5 := obs ("Performance degradation: " ++ toString degradation ++ "%") s4
          slowFinish fw (some degradation) (setRes "completed" s5)
    else
      slowFail fw env.errMsg s2
  else
    slowFail fw env.errMsg s1

/-- Environment of one `inject_random_failures` run: `rand i` is whether
`random.random() < 0.3` on trial `i` (line 267), `okQuery i` the outcome of
the normal `SELECT 1` on trial `i` (lines 271-272), with the durations of
the respective queries. -/
structure RandEnv where
  rand : Nat → Bool
  randTime : Nat → Nat
  okQuery : Nat → Bool
  okTime : Nat → Nat

/-- The trial loop `for i in range(10)` (lines 264-276), with `k` trials
remaining and `i` the current index; returns state, success count, failure
count.  On a random-draw hit the branch executes `SELECT 1/0`, which always
raises (integer division by zero is an error in PostgreSQL), so the
`failure_count += 1` on line 269 is unreachable and the `except` handler on
lines 275-276 performs the single increment for that trial; a failing
`SELECT 1` on the normal branch reaches the same handler. -/
def randLoop (env : RandEnv) : Nat → Nat → Nat → Nat → St → St × Nat × Nat
  | 0, _, sc, fc, s => (s, sc, fc)
  | k + 1, i, sc, fc, s =>
    if env.rand i then
      randLoop env k (i + 1) sc (fc + 1) (dbOp "select one div zero" (env.randTime i) s)
    else
      if env.okQuery i then
        randLoop env k (i + 1) (sc + 1) fc (dbOp "select one" (env.okTime i) s)
      else
        randLoop env k (i + 1) sc (fc + 1) (dbOp "failed select one" (env.okTime i) s)

/-- Result of an `inject_random_failures` run; the counts instrument the
locals `success_count` and `failure_count` (lines 261-262). -/
structure RandOut where
  st : St
  fw : Framework
  success_count : Nat
  failure_count : Nat

/-- Start state of `inject_random_failures` (lines 249-255): the
constructed Experiment with `start_time` assigned. -/
def randStart (clock conns : Nat) : St :=
  setStartNow (stInit
    (freshExp "Random Transaction Failures" "Test application error handling" "transactions")
    clock conns)

/-- `inject_random_failures` (lines 246-288).  Runs the 10-trial loop, then
unconditionally appends the aggregate observation and sets
`result = "completed"` (line 279) — per-trial failures are all absorbed by
the in-loop handler — then sets `end_time` and appends the experiment. -/
def inject_random_failures (env : RandEnv) (fw : Framework) (clock conns : Nat) : RandOut :=
  let r := randLoop env 10 0 0 0 (randStart clock conns)
  let s1 := obs ("Success: " ++ toString r.2.1 ++ ", Failures: " ++ toString r.2.2) r.1
  let s2 := setEndNow (setRes "completed" s1)
  ⟨s2, { fw with experiments := fw.experiments ++ [s2.exp] }, r.2.1, r.2.2⟩

/-- Environment of one `test_recovery_time` run: outcome and duration of the
liveness `SELECT 1` when the attempt counter has value `i`. -/
structure RecEnv where
  probeOk : Nat → Bool
  probeTime : Nat → Nat

/-- The `while attempts < max_attempts` loop (lines 301-308), with
`fuel = max_attempts - attempts`: a successful liveness query breaks out of
the loop; a failure increments `attempts` and sleeps 0.5 s.  Returns the
final attempt counter and clock. -/
def recoveryLoop (env : RecEnv) : Nat → Nat → Nat → Nat × Nat
  | 0, attempts, clock => (attempts, clock)
  | fuel + 1, attempts, clock =>
    if env.probeOk attempts then
      (attempts, clock + env.probeTime attempts)
    else
      recoveryLoop env fuel (attempts + 1) (clock + env.probeTime attempts + 500)

/-- The final value of the local `attempts` in `test_recovery_time`
(logged on line 314 but not returned). -/
def recoveryAttempts (env : RecEnv) (clock : Nat) : Nat :=
  (recoveryLoop env 10 0 clock).1

/-- `test_recovery_time` (lines 290-316): runs the probe loop with
`max_attempts = 10` and returns `recovery_time`, the elapsed wall-clock
milliseconds — and only that (line 316). -/
def test_recovery_time (env : RecEnv) (clock : Nat) : Nat :=
  (recoveryLoop env 10 0 clock).2 - clock

/-- `completed = [e for e in self.experiments if e.result == 'completed']`
(line 326). -/
def completedOf (l : List Experiment) : List Experiment :=
  l.filter fun e => e.result == some "completed"

/-- `failed = [e for e in self.experiments if e.result == 'failed']`
(line 327). -/
def failedOf (l : List Experiment) : List Experiment :=
  l.filter fun e => e.result == some "failed"

/-- `score = (len(completed) / len(self.experiments) * 100) if
self.experiments else 0` (line 354): the guard on a nonempty list is
written contrapositively. -/
def score (l : List Experiment) : ℚ :=
  if l.length = 0 then 0
  else ((completedOf l).length : ℚ) / (l.length : ℚ) * 100

/-- The tier cascade of `generate_report` (lines 358-365), top-down,
first match wins. -/
def assessment (q : ℚ) : String :=
  if q ≥ 80 then "EXCELLENT"
  else if q ≥ 60 then "GOOD"
  else if q ≥ 40 then "FAIR"
  else "NEEDS IMPROVEMENT"

/-- The numbers `generate_report` (lines 318-377) derives from the
experiment list before printing them. -/
structure Report where
  total : Nat
  completedCount : Nat
  failedCount : Nat
  scoreValue : ℚ
  tier : String
deriving DecidableEq

/-- `generate_report` as a pure function of the experiment list. -/
def generate_report (l : List Experiment) : Report :=
  { total := l.length
  , completedCount := (completedOf l).length
  , failedCount := (failedOf l).length
  , scoreValue := score l
  , tier := assessment (score l) }

/-- Environment of a whole suite run: outcomes of `connect` (lines 40-51),
`setup` (lines 53-69) and `capture_baseline` (lines 71-97) — the latter two
raise uncaught on failure — the captured baseline values, and the
per-injector environments. -/
structure SuiteEnv where
  connectOk : Bool
  setupOk : Bool
  baselineOk : Bool
  baselineLatency : ℚ
  baselineConns : Nat
  cpu : CpuEnv
  sat : SatEnv
  slow : SlowEnv
  rnd : RandEnv
  recov : RecEnv

/-- Outcome of `run_chaos_suite` (lines 379-437): the experiment list, the
report if `generate_report` was reached, and whether an exception escaped
the method (a failed `connect` is handled internally — `connect` returns
`False` and the method returns early — but `setup` and `capture_baseline`
raise uncaught). -/
structure SuiteResult where
  experiments : List Experiment
  report : Option Report
  raised : Bool
deriving DecidableEq

/-- `run_chaos_suite` (lines 379-437): connect, setup, baseline, then the
four injectors in order with 2 s isolation sleeps, the recovery test (whose
return value is discarded, line 425), and the report. -/
def run_chaos_suite (env : SuiteEnv) : SuiteResult :=
  if !env.connectOk then ⟨[], none, false⟩
  else if !env.setupOk then ⟨[], none, true⟩
  else if !env.baselineOk then ⟨[], none, true⟩
  else
    let fw0 : Framework := ⟨[], some ⟨env.baselineLatency, env.baselineConns, 0⟩⟩
    let o1 := inject_high_cpu_load env.cpu fw0 2000 env.baselineConns
    let o2 := inject_connection_saturation env.sat o1.fw (o1.st.clock + 2000) o1.st.conns
    let o3 := inject_slow_queries env.slow o2.fw (o2.st.clock + 2000) o2.st.conns
    let o4 := inject_random_failures env.rnd o3.fw (o3.st.clock + 2000) o3.st.conns
    let _rt := test_recovery_time env.recov (o4.st.clock + 2000)
    let final := o4.fw.experiments
    ⟨final, some (generate_report final), false⟩

/-- `main` (lines 440-446) runs the suite; the process exit code is 0 when
`run_chaos_suite` returns normally and 1 when an exception escapes it
(Python exits nonzero on an uncaught exception). -/
def main_exit (env : SuiteEnv) : Nat :=
  if (run_chaos_suite env).raised then 1 else 0

/-- Total elapsed time of `f` consecutive failing probe attempts of
`test_recovery_time` starting at attempt index `i`: each failing attempt
costs its query duration plus the 0.5 s sleep of line 308. -/
def failElapsed (env : RecEnv) : Nat → Nat → Nat
  | _, 0 => 0
  | i, f + 1 => env.probeTime i + 500 + failElapsed env (i + 1) f

/-- Lifecycle invariant of one injector run: no database side effect before
`start_time` is assigned, `result` is assigned exactly once and to a
terminal value, both timestamps are set with `end_time ≥ start_time`, and
at least one observation was appended. -/
def experimentWellFormed (s : St) : Prop :=
  noEffectBeforeStart s.trace = true
  ∧ (resultsSet s.trace = ["completed"] ∨ resultsSet s.trace = ["failed"])
  ∧ (s.exp.result = some "completed" ∨ s.exp.result = some "failed")
  ∧ (∃ t0 t1, s.exp.start_time = some t0 ∧ s.exp.end_time = some t1 ∧ t0 ≤ t1)
  ∧ s.exp.observations ≠ []

/-- A terminal experiment with result `"completed"`, for concrete scoring
inputs. -/
def expDone : Experiment :=
  { name := "e", description := "d", blast_radius := "database",
    start_time := some 0, end_time := some 1,
    result := some "completed", observations := ["ok"] }

/-- A terminal experiment with result `"failed"`, for concrete scoring
inputs. -/
def expFail : Experiment :=
  { name := "e", description := "d", blast_radius := "database",
    start_time := some 0, end_time := some 1,
    result := some "failed", observations := ["err"] }

/-- Five experiments, three of which completed. -/
def exps35 : List Experiment := [expDone, expDone, expDone, expFail, expFail]

/-- Five experiments, two of which completed. -/
def exps25 : List Experiment := [expDone, expDone, expFail, expFail, expFail]

/-- A concrete CPU-load environment (query succeeds in 10 ms). -/
def cpuEnv0 : CpuEnv := ⟨true, 10, "query error"⟩

/-- A concrete saturation environment: every connect succeeds in 1 ms and
the extra probe is blocked. -/
def satEnv0 : SatEnv := ⟨fun _ => true, fun _ => 1, false, 2, "connect error"⟩

/-- A concrete slow-query environment: both queries succeed and the
measured count-query latency is 500 ms. -/
def slowEnv0 : SlowEnv := ⟨true, 2000, true, 500, "query error"⟩

/-- A concrete random-failure environment: the random draw hits on every
third trial, normal queries succeed, each query takes 1 ms. -/
def randEnvA : RandEnv := ⟨fun i => i % 3 == 0, fun _ => 1, fun _ => true, fun _ => 1⟩

/-- Same random stream and query outcomes as `randEnvA`, but every query
duration differs (7 ms and 9 ms instead of 1 ms). -/
def randEnvB : RandEnv := ⟨fun i => i % 3 == 0, fun _ => 7, fun _ => true, fun _ => 9⟩

/-- A recovery environment whose liveness query fails on every attempt,
each attempt returning instantly. -/
def recEnvFail : RecEnv := ⟨fun _ => false, fun _ => 0⟩

/-- A concrete suite environment whose initial `connect` fails. -/
def envNoConnect : SuiteEnv :=
  ⟨false, true, true, 5, 3, cpuEnv0, satEnv0, slowEnv0, randEnvA, recEnvFail⟩

theorem resultsSet_append (a b : List Event) :
    resultsSet (a ++ b) = resultsSet a ++ resultsSet b := by
  induction a with
  | nil => simp [resultsSet]
  | cons h t ih => cases h <;> simp [resultsSet, ih]

theorem satAcquire_facts (env : SatEnv) (k : Nat) : ∀ (i : Nat) (s : St),
    (satAcquire env k i s).1.exp = s.exp
    ∧ (satAcquire env k i s).1.conns = s.conns + (satAcquire env k i s).2.1
    ∧ s.clock ≤ (satAcquire env k i s).1.clock
    ∧ ∃ l, (satAcquire env k i s).1.trace = s.trace ++ l ∧ resultsSet l = [] := by
  induction k with
  | zero =>
    intro i s
    refine ⟨rfl, by simp [satAcquire], Nat.le_refl _, [], by simp [satAcquire], rfl⟩
  | succ k ih =>
    intro i s
    by_cases h : env.connectOk i
    · obtain ⟨he, hc, hk, l, hl, hr⟩ := ih (i + 1) (openConn (env.connectTime i) s)
      simp only [satAcquire, h, if_true]
      refine ⟨by simpa [openConn] using he, ?_, ?_, Event.dbEffect "connect" :: l, ?_, ?_⟩
      · rw [hc]; simp [openConn]; omega
      · simp only [openConn] at hk; exact le_trans (Nat.le_add_right _ _) hk
      · rw [hl]; simp [openConn]
      · simp [resultsSet, hr]
    · simp only [satAcquire, h, if_false]
      refine ⟨rfl, by simp [dbOp], by simp [dbOp], [Event.dbEffect "failed connect attempt"],
        by simp [dbOp], by simp [resultsSet]⟩

theorem closeMany_facts (n : Nat) : ∀ s : St,
    (closeMany n s).exp = s.exp
    ∧ (closeMany n s).clock = s.clock
    ∧ (closeMany n s).conns = s.conns - n
    ∧ ∃ l, (closeMany n s).trace = s.trace ++ l ∧ resultsSet l = [] := by
  induction n with
  | zero =>
    intro s
    refine ⟨rfl, rfl, by simp [closeMany], [], by simp [closeMany], rfl⟩
  | succ n ih =>
    intro s
    obtain ⟨he, hc, hk, l, hl, hr⟩ := ih (closeConn s)
    simp only [closeMany]
    refine ⟨by simpa [closeConn] using he, by simpa [closeConn] using hc, ?_,
      Event.dbEffect "close" :: l, ?_, ?_⟩
    · rw [hk]; simp [closeConn]; omega
    · rw [hl]; simp [closeConn]
    · simp [resultsSet, hr]

theorem randLoop_facts (env : RandEnv) (k : Nat) : ∀ (i sc fc : Nat) (s : St),
    (randLoop env k i sc fc s).1.exp = s.exp
    ∧ (randLoop env k i sc fc s).1.conns = s.conns
    ∧ s.clock ≤ (randLoop env k i sc fc s).1.clock
    ∧ (∃ l, (randLoop env k i sc fc s).1.trace = s.trace ++ l ∧ resultsSet l = [])
    ∧ (randLoop env k i sc fc s).2.1 + (randLoop env k i sc fc s).2.2 = sc + fc + k := by
  induction k with
  | zero =>
    intro i sc fc s
    refine ⟨rfl, rfl, Nat.le_refl _, ⟨[], by simp [randLoop], rfl⟩, by simp [randLoop]⟩
  | succ k ih =>
    intro i sc fc s
    by_cases h : env.rand i
    · obtain ⟨he, hc, hk, ⟨l, hl, hr⟩, hn⟩ :=
        ih (i + 1) sc (fc + 1) (dbOp "select one div zero" (env.randTime i) s)
      simp only [randLoop, h, if_true]
      refine ⟨by simpa [dbOp] using he, by simpa [dbOp] using hc, ?_,
        ⟨Event.dbEffect "select one div zero" :: l, by rw [hl]; simp [dbOp],
          by simp [resultsSet, hr]⟩, by omega⟩
      · simp only [dbOp] at hk; exact le_trans (Nat.le_add_right _ _) hk
    · by_cases hq : env.okQuery i
      · obtain ⟨he, hc, hk, ⟨l, hl, hr⟩, hn⟩ :=
          ih (i + 1) (sc + 1) fc (dbOp "select one" (env.okTime i) s)
        simp only [randLoop, h, hq, Bool.false_eq_true, if_false, if_true]
        refine ⟨by simpa [dbOp] using he, by simpa [dbOp] using hc, ?_,
          ⟨Event.dbEffect "select one" :: l, by rw [hl]; simp [dbOp],
            by simp [resultsSet, hr]⟩, by omega⟩
        · simp only [dbOp] at hk; exact le_trans (Nat.le_add_right _ _) hk
      · obtain ⟨he, hc, hk, ⟨l, hl, hr⟩, hn⟩ :=
          ih (i + 1) sc (fc + 1) (dbOp "failed select one" (env.okTime i) s)
        simp only [randLoop, h, hq, Bool.false_eq_true, if_false]
        refine ⟨by simpa [dbOp] using he, by simpa [dbOp] using hc, ?_,
          ⟨Event.dbEffect "failed select one" :: l, by rw [hl]; simp [dbOp],
            by simp [resultsSet, hr]⟩, by omega⟩
        · simp only [dbOp] at hk; exact le_trans (Nat.le_add_right _ _) hk

theorem randLoop_counts_det (e1 e2 : RandEnv) (hr : e1.rand = e2.rand)
    (hq : e1.okQuery = e2.okQuery) (k : Nat) : ∀ (i sc fc : Nat) (s t : St),
    (randLoop e1 k i sc fc s).2 = (randLoop e2 k i sc fc t).2 := by
  induction k with
  | zero => intro i sc fc s t; simp [randLoop]
  | succ k ih =>
    intro i sc fc s t
    by_cases h : e1.rand i
    · have h2 : e2.rand i = true := by rw [← hr]; exact h
      simp only [randLoop, h, h2, if_true]
      exact ih _ _ _ _ _
    · have h2 : e2.rand i = false := by rw [← hr]; simpa using h
      by_cases hk : e1.okQuery i
      · have hk2 : e2.okQuery i = true := by rw [← hq]; exact hk
        simp only [randLoop, h, h2, hk, hk2, if_true, if_false, Bool.false_eq_true]
        exact ih _ _ _ _ _
      · have hk2 : e2.okQuery i = false := by rw [← hq]; simpa using hk
        simp only [randLoop, h, h2, hk, hk2, if_false, Bool.false_eq_true]
        exact ih _ _ _ _ _

theorem recoveryLoop_fail (env : RecEnv) (hf : ∀ i, env.probeOk i = false) (f : Nat) :
    ∀ (a c : Nat), recoveryLoop env f a c = (a + f, c + failElapsed env a f) := by
  induction f with
  | zero => intro a c; simp [recoveryLoop, failElapsed]
  | succ f ih =>
    intro a c
    simp only [recoveryLoop, hf a, Bool.false_eq_true, if_false]
    rw [ih]
    simp only [failElapsed, Prod.mk.injEq]
    constructor <;> omega

theorem recoveryLoop_stop (env : RecEnv) (f : Nat) : ∀ (a c : Nat),
    a ≤ (recoveryLoop env f a c).1
    ∧ (recoveryLoop env f a c).1 ≤ a + f
    ∧ ((recoveryLoop env f a c).1 < a + f → env.probeOk (recoveryLoop env f a c).1 = true)
    ∧ (∀ j, a ≤ j → j < (recoveryLoop env f a c).1 → env.probeOk j = false) := by
  induction f with
  | zero =>
    intro a c
    have heq : recoveryLoop env 0 a c = (a, c) := rfl
    rw [heq]
    refine ⟨Nat.le_refl _, Nat.le_add_right _ _, fun h => absurd (show a < a + 0 from h) (by omega),
      fun j hj hj2 => absurd (show j < a from hj2) (by omega)⟩
  | succ f ih =>
    intro a c
    cases h : env.probeOk a with
    | true =>
      have heq : recoveryLoop env (f + 1) a c = (a, c + env.probeTime a) := by
        simp [recoveryLoop, h]
      rw [heq]
      exact ⟨Nat.le_refl _, Nat.le_add_right _ _, fun _ => h,
        fun j hj hj2 => absurd (show j < a from hj2) (by omega)⟩
    | false =>
      obtain ⟨h1, h2, h3, h4⟩ := ih (a + 1) (c + env.probeTime a + 500)
      have heq : recoveryLoop env (f + 1) a c
          = recoveryLoop env f (a + 1) (c + env.probeTime a + 500) := by
        simp [recoveryLoop, h]
      rw [heq]
      refine ⟨by omega, by omega, fun hlt => h3 (by omega), ?_⟩
      intro j hj hjlt
      rcases Nat.eq_or_lt_of_le hj with heq2 | hlt2
      · rw [← heq2]; exact h
      · exact h4 j (by omega) hjlt

theorem cpu_wellFormed (env : CpuEnv) (fw : Framework) (c k : Nat) :
    experimentWellFormed (inject_high_cpu_load env fw c k).st := by
  by_cases h : env.queryOk
  · refine ⟨?_, Or.inl ?_, Or.inl ?_, ⟨c, c + env.queryTime, ?_, ?_, ?_⟩, ?_⟩ <;>
      simp [inject_high_cpu_load, h, setStartNow, setEndNow, setRes, obs, dbOp, stInit,
        freshExp, noEffectBeforeStart, resultsSet]
  · refine ⟨?_, Or.inr ?_, Or.inr ?_, ⟨c, c + env.queryTime, ?_, ?_, ?_⟩, ?_⟩ <;>
      simp [inject_high_cpu_load, h, setStartNow, setEndNow, setRes, obs, dbOp, stInit,
        freshExp, noEffectBeforeStart, resultsSet]

theorem noEffectBeforeStart_startHead (t0 : Nat) (m : List Event) :
    noEffectBeforeStart (Event.setStart t0 :: m) = true := rfl

theorem epilogue_facts (n : Nat) (s : St) :
    (setEndNow (closeMany n s)).exp.start_time = s.exp.start_time
    ∧ (setEndNow (closeMany n s)).exp.result = s.exp.result
    ∧ (setEndNow (closeMany n s)).exp.observations = s.exp.observations
    ∧ (setEndNow (closeMany n s)).exp.end_time = some s.clock
    ∧ (setEndNow (closeMany n s)).conns = s.conns - n
    ∧ ∃ m, (setEndNow (closeMany n s)).trace = s.trace ++ m ∧ resultsSet m = [] := by
  obtain ⟨ce, cc, ck, l3, cl, cr⟩ := closeMany_facts n s
  refine ⟨by simp [setEndNow, ce], by simp [setEndNow, ce], by simp [setEndNow, ce],
    by simp [setEndNow, ce, cc], by simp [setEndNow, ck],
    ⟨l3 ++ [Event.setEnd (closeMany n s).clock], by simp [setEndNow, cl], ?_⟩⟩
  simp [resultsSet_append, resultsSet, cr]

theorem satStart_facts (c k : Nat) :
    (satStart c k).exp.start_time = some c
    ∧ (satStart c k).exp.observations = []
    ∧ (satStart c k).exp.result = none
    ∧ (satStart c k).clock = c
    ∧ (satStart c k).conns = k
    ∧ (satStart c k).trace = [Event.setStart c] := by
  refine ⟨?_, ?_, ?_, ?_, ?_, ?_⟩ <;> simp [satStart, setStartNow, stInit, freshExp]

theorem sat_wellFormed (env : SatEnv) (fw : Framework) (c k : Nat) :
    experimentWellFormed (inject_connection_saturation env fw c k).st := by
  obtain ⟨he, hc, hk2, l, hl, hr⟩ := satAcquire_facts env 10 0 (satStart c k)
  obtain ⟨p1, p2, p3, p4, p5, p6⟩ := satStart_facts c k
  simp only [inject_connection_saturation]
  cases hok : (satAcquire env 10 0 (satStart c k)).2.2 with
  | false =>
    rw [if_neg Bool.false_ne_true]
    obtain ⟨q1, q2, q3, q4, q5, q7⟩ :=
      epilogue_facts ((satAcquire env 10 0 (satStart c k)).2.1)
        (setRes "failed" (obs ("Error: " ++ env.errMsg) (satAcquire env 10 0 (satStart c k)).1))
    refine ⟨?_, Or.inr ?_, Or.inr ?_, ⟨c, _, ?_, q4, ?_⟩, ?_⟩
    · obtain ⟨m, hm, hrm⟩ := q7
      have htr : (setEndNow (closeMany ((satAcquire env 10 0 (satStart c k)).2.1)
          (setRes "failed" (obs ("Error: " ++ env.errMsg)
            (satAcquire env 10 0 (satStart c k)).1)))).trace
          = Event.setStart c :: (l ++ ([Event.appendObs ("Error: " ++ env.errMsg),
              Event.setResult "failed"] ++ m)) := by
        rw [hm]
        simp [setRes, obs, hl, p6]
      rw [htr]
      exact noEffectBeforeStart_startHead _ _
    · obtain ⟨m, hm, hrm⟩ := q7
      rw [hm]
      simp [resultsSet_append, setRes, obs, hl, p6, resultsSet, hr, hrm]
    · rw [q2]; simp [setRes]
    · rw [q1]; simp [setRes, obs, he, p1]
    · simp only [setRes, obs] at q4 ⊢
      have : c ≤ (satAcquire env 10 0 (satStart c k)).1.clock := by rw [← p4]; exact hk2
      exact this
    · rw [q3]; simp [setRes, obs]
  | true =>
    rw [if_pos rfl]
    cases hp : env.probeOk with
    | true =>
      rw [if_pos rfl]
      obtain ⟨q1, q2, q3, q4, q5, q7⟩ :=
        epilogue_facts ((satAcquire env 10 0 (satStart c k)).2.1)
          (setRes "completed" (obs "Additional connection succeeded"
            (closeConn (openConn env.probeTime (sleepMs 2000
              (obs ("Created " ++ toString ((satAcquire env 10 0 (satStart c k)).2.1)
                ++ " connections") (satAcquire env 10 0 (satStart c k)).1))))))
      refine ⟨?_, Or.inl ?_, Or.inl ?_, ⟨c, _, ?_, q4, ?_⟩, ?_⟩
      · obtain ⟨m, hm, hrm⟩ := q7
        rw [show (setEndNow (closeMany ((satAcquire env 10 0 (satStart c k)).2.1)
            (setRes "completed" (obs "Additional connection succeeded"
              (closeConn (openConn env.probeTime (sleepMs 2000
                (obs ("Created " ++ toString ((satAcquire env 10 0 (satStart c k)).2.1)
                  ++ " connections") (satAcquire env 10 0 (satStart c k)).1)))))))).trace
            = Event.setStart c :: (l ++ ([Event.appendObs ("Created "
                ++ toString ((satAcquire env 10 0 (satStart c k)).2.1) ++ " connections"),
                Event.dbEffect "connect", Event.dbEffect "close",
                Event.appendObs "Additional connection succeeded",
                Event.setResult "completed"] ++ m)) from by
          rw [hm]; simp [setRes, obs, closeConn, openConn, sleepMs, hl, p6]]
        exact noEffectBeforeStart_startHead _ _
      · obtain ⟨m, hm, hrm⟩ := q7
        rw [hm]
        simp [resultsSet_append, setRes, obs, closeConn, openConn, sleepMs, hl, p6,
          resultsSet, hr, hrm]
      · rw [q2]; simp [setRes]
      · rw [q1]; simp [setRes, obs, closeConn, openConn, sleepMs, he, p1]
      · simp only [setRes, obs, closeConn, openConn, sleepMs] at q4 ⊢
        have hcle : c ≤ (satAcquire env 10 0 (satStart c k)).1.clock := by
          rw [← p4]; exact hk2
        omega
      · rw [q3]; simp [setRes, obs, closeConn, openConn, sleepMs]
    | false =>
      rw [if_neg Bool.false_ne_true]
      obtain ⟨q1, q2, q3, q4, q5, q7⟩ :=
        epilogue_facts ((satAcquire env 10 0 (satStart c k)).2.1)
          (setRes "completed" (obs "Additional connection blocked (expected)"
            (dbOp "failed probe connect" env.probeTime (sleepMs 2000
              (obs ("Created " ++ toString ((satAcquire env 10 0 (satStart c k)).2.1)
                ++ " connections") (satAcquire env 10 0 (satStart c k)).1)))))
      refine ⟨?_, Or.inl ?_, Or.inl ?_, ⟨c, _, ?_, q4, ?_⟩, ?_⟩
      · obtain ⟨m, hm, hrm⟩ := q7
        rw [show (setEndNow (closeMany ((satAcquire env 10 0 (satStart c k)).2.1)
            (setRes "completed" (obs "Additional connection blocked (expected)"
              (dbOp "failed probe connect" env.probeTime (sleepMs 2000
                (obs ("Created " ++ toString ((satAcquire env 10 0 (satStart c k)).2.1)
                  ++ " connections") (satAcquire env 10 0 (satStart c k)).1))))))).trace
            = Event.setStart c :: (l ++ ([Event.appendObs ("Created "
                ++ toString ((satAcquire env 10 0 (satStart c k)).2.1) ++ " connections"),
                Event.dbEffect "failed probe connect",
                Event.appendObs "Additional connection blocked (expected)",
                Event.setResult "completed"] ++ m)) from by
          rw [hm]; simp [setRes, obs, dbOp, sleepMs, hl, p6]]
        exact noEffectBeforeStart_startHead _ _
      · obtain ⟨m, hm, hrm⟩ := q7
        rw [hm]
        simp [resultsSet_append, setRes, obs, dbOp, sleepMs, hl, p6, resultsSet, hr, hrm]
      · rw [q2]; simp [setRes]
      · rw [q1]; simp [setRes, obs, dbOp, sleepMs, he, p1]
      · simp only [setRes, obs, dbOp, sleepMs] at q4 ⊢
        have hcle : c ≤ (satAcquire env 10 0 (satStart c k)).1.clock := by
          rw [← p4]; exact hk2
        omega
      · rw [q3]; simp [setRes, obs, dbOp, sleepMs]

theorem sat_conns_restored (env : SatEnv) (fw : Framework) (c k : Nat) :
    (inject_connection_saturation env fw c k).st.conns = k := by
  obtain ⟨he, hc, hk2, l, hl, hr⟩ := satAcquire_facts env 10 0 (satStart c k)
  obtain ⟨p1, p2, p3, p4, p5, p6⟩ := satStart_facts c k
  simp only [inject_connection_saturation]
  cases hok : (satAcquire env 10 0 (satStart c k)).2.2 with
  | false =>
    rw [if_neg Bool.false_ne_true]
    obtain ⟨q1, q2, q3, q4, q5, q7⟩ :=
      epilogue_facts ((satAcquire env 10 0 (satStart c k)).2.1)
        (setRes "failed" (obs ("Error: " ++ env.errMsg) (satAcquire env 10 0 (satStart c k)).1))
    rw [q5]
    simp only [setRes, obs]
    rw [hc, p5]
    omega
  | true =>
    rw [if_pos rfl]
    cases hp : env.probeOk with
    | true =>
      rw [if_pos rfl]
      obtain ⟨q1, q2, q3, q4, q5, q7⟩ :=
        epilogue_facts ((satAcquire env 10 0 (satStart c k)).2.1)
          (setRes "completed" (obs "Additional connection succeeded"
            (closeConn (openConn env.probeTime (sleepMs 2000
              (obs ("Created " ++ toString ((satAcquire env 10 0 (satStart c k)).2.1)
                ++ " connections") (satAcquire env 10 0 (satStart c k)).1))))))
      rw [q5]
      simp only [setRes, obs, closeConn, openConn, sleepMs]
      rw [hc, p5]
      omega
    | false =>
      rw [if_neg Bool.false_ne_true]
      obtain ⟨q1, q2, q3, q4, q5, q7⟩ :=
        epilogue_facts ((satAcquire env 10 0 (satStart c k)).2.1)
          (setRes "completed" (obs "Additional connection blocked (expected)"
            (dbOp "failed probe connect" env.probeTime (sleepMs 2000
              (obs ("Created " ++ toString ((satAcquire env 10 0 (satStart c k)).2.1)
                ++ " connections") (satAcquire env 10 0 (satStart c k)).1)))))
      rw [q5]
      simp only [setRes, obs, dbOp, sleepMs]
      rw [hc, p5]
      omega

theorem slow_wellFormed (env : SlowEnv) (fw : Framework) (c k : Nat) :
    experimentWellFormed (inject_slow_queries env fw c k).st := by
  by_cases h1 : env.sleepOk
  · by_cases h2 : env.countOk
    · cases hb : fw.baseline with
      | none =>
        refine ⟨?_, Or.inr ?_, Or.inr ?_,
            ⟨c, c + env.sleepTime + env.countTime, ?_, ?_, by omega⟩, ?_⟩ <;>
          simp [inject_slow_queries, h1, h2, hb, slowFail, slowFinish, setStartNow,
            setEndNow, setRes, obs, dbOp, stInit, freshExp, noEffectBeforeStart, resultsSet]
      | some b =>
        by_cases h3 : b.query_latency_ms = 0
        · refine ⟨?_, Or.inr ?_, Or.inr ?_,
              ⟨c, c + env.sleepTime + env.countTime, ?_, ?_, by omega⟩, ?_⟩ <;>
            simp [inject_slow_queries, h1, h2, hb, h3, slowFail, slowFinish, setStartNow,
              setEndNow, setRes, obs, dbOp, stInit, freshExp, noEffectBeforeStart, resultsSet]
        · refine ⟨?_, Or.inl ?_, Or.inl ?_,
              ⟨c, c + env.sleepTime + env.countTime, ?_, ?_, by omega⟩, ?_⟩ <;>
            simp [inject_slow_queries, h1, h2, hb, h3, slowFail, slowFinish, setStartNow,
              setEndNow, setRes, obs, dbOp, stInit, freshExp, noEffectBeforeStart, resultsSet]
    · refine ⟨?_, Or.inr ?_, Or.inr ?_,
          ⟨c, c + env.sleepTime + env.countTime, ?_, ?_, by omega⟩, ?_⟩ <;>
        simp [inject_slow_queries, h1, h2, slowFail, slowFinish, setStartNow, setEndNow,
          setRes, obs, dbOp, stInit, freshExp, noEffectBeforeStart, resultsSet]
  · refine ⟨?_, Or.inr ?_, Or.inr ?_, ⟨c, c + env.sleepTime, ?_, ?_, by omega⟩, ?_⟩ <;>
      simp [inject_slow_queries, h1, slowFail, slowFinish, setStartNow, setEndNow,
        setRes, obs, dbOp, stInit, freshExp, noEffectBeforeStart, resultsSet]

theorem randStart_facts (c k : Nat) :
    (randStart c k).exp.start_time = some c
    ∧ (randStart c k).exp.observations = []
    ∧ (randStart c k).clock = c
    ∧ (randStart c k).conns = k
    ∧ (randStart c k).trace = [Event.setStart c] := by
  refine ⟨?_, ?_, ?_, ?_, ?_⟩ <;> simp [randStart, setStartNow, stInit, freshExp]

theorem rand_wellFormed (env : RandEnv) (fw : Framework) (c k : Nat) :
    experimentWellFormed (inject_random_failures env fw c k).st := by
  obtain ⟨he, hc, hk2, ⟨l, hl, hr⟩, hn⟩ := randLoop_facts env 10 0 0 0 (randStart c k)
  obtain ⟨p1, p2, p4, p5, p6⟩ := randStart_facts c k
  simp only [inject_random_failures]
  refine ⟨?_, Or.inl ?_, Or.inl ?_,
    ⟨c, (randLoop env 10 0 0 0 (randStart c k)).1.clock, ?_, ?_, ?_⟩, ?_⟩
  · rw [show (setEndNow (setRes "completed"
        (obs ("Success: " ++ toString ((randLoop env 10 0 0 0 (randStart c k)).2.1)
          ++ ", Failures: " ++ toString ((randLoop env 10 0 0 0 (randStart c k)).2.2))
          (randLoop env 10 0 0 0 (randStart c k)).1))).trace
        = Event.setStart c :: (l ++ [Event.appendObs ("Success: "
            ++ toString ((randLoop env 10 0 0 0 (randStart c k)).2.1)
            ++ ", Failures: " ++ toString ((randLoop env 10 0 0 0 (randStart c k)).2.2)),
            Event.setResult "completed",
            Event.setEnd (randLoop env 10 0 0 0 (randStart c k)).1.clock]) from by
      simp [setEndNow, setRes, obs, hl, p6]]
    exact noEffectBeforeStart_startHead _ _
  · simp [setEndNow, setRes, obs, resultsSet_append, resultsSet, hl, p6, hr]
  · simp [setEndNow, setRes, obs]
  · simp [setEndNow, setRes, obs, he, p1]
  · simp [setEndNow, setRes, obs]
  · rw [← p4]; exact hk2
  · simp [setEndNow, setRes, obs]

theorem rand_clock_ge (env : RandEnv) (c k : Nat) :
    c ≤ (randLoop env 10 0 0 0 (randStart c k)).1.clock := by
  obtain ⟨he, hc, hk2, ht, hn⟩ := randLoop_facts env 10 0 0 0 (randStart c k)
  obtain ⟨p1, p2, p4, p5, p6⟩ := randStart_facts c k
  rw [← p4]
  exact hk2

theorem score_formula (l : List Experiment) :
    score l = 100 * ((completedOf l).length : ℚ) / (l.length : ℚ) := by
  by_cases h : l.length = 0
  · simp [score, h]
  · simp only [score, h, if_false]
    ring

theorem assessment_thresholds (q : ℚ) :
    (80 ≤ q → assessment q = "EXCELLENT")
    ∧ (60 ≤ q → q < 80 → assessment q = "GOOD")
    ∧ (40 ≤ q → q < 60 → assessment q = "FAIR")
    ∧ (q < 40 → assessment q = "NEEDS IMPROVEMENT") := by
  refine ⟨fun h => ?_, fun ha hb => ?_, fun ha hb => ?_, fun h => ?_⟩
  · rw [assessment, if_pos h]
  · rw [assessment, if_neg (not_le.mpr hb), if_pos ha]
  · rw [assessment, if_neg (not_le.mpr (lt_of_lt_of_le hb (by norm_num))),
      if_neg (not_le.mpr hb), if_pos ha]
  · rw [assessment, if_neg (not_le.mpr (lt_of_lt_of_le h (by norm_num))),
      if_neg (not_le.mpr (lt_of_lt_of_le h (by norm_num))), if_neg (not_le.mpr h)]

theorem recovery_allFail (env : RecEnv) (c : Nat) (hf : ∀ i, env.probeOk i = false) :
    recoveryAttempts env c = 10 ∧ test_recovery_time env c = failElapsed env 0 10 := by
  have h := recoveryLoop_fail env hf 10 0 c
  constructor
  · simp [recoveryAttempts, h]
  · simp [test_recovery_time, h]

theorem recovery_stopping (env : RecEnv) (c : Nat) :
    recoveryAttempts env c ≤ 10
    ∧ (recoveryAttempts env c < 10 → env.probeOk (recoveryAttempts env c) = true)
    ∧ ∀ j, j < recoveryAttempts env c → env.probeOk j = false := by
  obtain ⟨h1, h2, h3, h4⟩ := recoveryLoop_stop env 10 0 c
  refine ⟨?_, fun h => ?_, fun j hj => ?_⟩
  · simp only [recoveryAttempts]
    omega
  · exact h3 (by simp only [recoveryAttempts] at h; omega)
  · exact h4 j (Nat.zero_le j) hj

theorem suite_connectFail (env : SuiteEnv) (h : env.connectOk = false) :
    (run_chaos_suite env).experiments = [] ∧ (run_chaos_suite env).report = none
    ∧ main_exit env = 0 := by
  refine ⟨?_, ?_, ?_⟩ <;> simp [run_chaos_suite, main_exit, h]

theorem slow_deg_9900 (dt1 : Nat) (m : String) (exps : List Experiment) (c k ac ts : Nat) :
    (inject_slow_queries ⟨true, dt1, true, 500, m⟩ ⟨exps, some ⟨5, ac, ts⟩⟩ c k).deg
      = some 9900 := by
  norm_num [inject_slow_queries, slowFinish, slowFail, setRes, obs, dbOp,
    setStartNow, stInit, freshExp]

theorem slow_noBaseline (env : SlowEnv) (exps : List Experiment) (c k : Nat) :
    (inject_slow_queries env ⟨exps, none⟩ c k).st.exp.result = some "failed"
    ∧ ∃ m, (inject_slow_queries env ⟨exps, none⟩ c k).st.exp.observations.getLast?
        = some ("Error: " ++ m) := by
  by_cases h1 : env.sleepOk
  · by_cases h2 : env.countOk
    · refine ⟨?_, "query_latency_ms", ?_⟩ <;>
        simp [inject_slow_queries, h1, h2, slowFail, slowFinish, setRes, obs, dbOp,
          setStartNow, setEndNow, stInit, freshExp]
    · refine ⟨?_, env.errMsg, ?_⟩ <;>
        simp [inject_slow_queries, h1, h2, slowFail, slowFinish, setRes, obs, dbOp,
          setStartNow, setEndNow, stInit, freshExp]
  · refine ⟨?_, env.errMsg, ?_⟩ <;>
      simp [inject_slow_queries, h1, slowFail, slowFinish, setRes, obs, dbOp,
        setStartNow, setEndNow, stInit, freshExp]

theorem completedOf_exps35 : (completedOf exps35).length = 3 := by decide

theorem completedOf_exps25 : (completedOf exps25).length = 2 := by decide

theorem score_exps35 : score exps35 = 60 := by
  rw [score_formula, completedOf_exps35]
  norm_num [exps35]

theorem score_exps25 : score exps25 = 40 := by
  rw [score_formula, completedOf_exps25]
  norm_num [exps25]

/-- Claim C1: for every fault injector (CPU load, connection saturation, slow
query, random failure) and every execution, the Experiment it produces has
`start_time` assigned before any database side effect, and on every exit path
(normal completion and internal exception) `end_time` is set, `result` is
assigned exactly once and to a terminal value ("completed" or "failed"),
`end_time ≥ start_time`, and at least one Observation has been appended. -/
theorem claim_C1_injector_lifecycle (e1 : CpuEnv) (e2 : SatEnv) (e3 : SlowEnv)
    (e4 : RandEnv) (fw : Framework) (c k : Nat) :
    experimentWellFormed (inject_high_cpu_load e1 fw c k).st
    ∧ experimentWellFormed (inject_connection_saturation e2 fw c k).st
    ∧ experimentWellFormed (inject_slow_queries e3 fw c k).st
    ∧ experimentWellFormed (inject_random_failures e4 fw c k).st :=
  ⟨cpu_wellFormed e1 fw c k, sat_wellFormed e2 fw c k, slow_wellFormed e3 fw c k,
    rand_wellFormed e4 fw c k⟩

/-- Claim C2: the resilience score of the report equals
100 × completedCount / totalCount for every experiment sequence, and equals 0
for the empty sequence (in ℚ the first formula also yields 0 at total = 0). -/
theorem claim_C2_resilience_score :
    (∀ l : List Experiment,
      (generate_report l).scoreValue = 100 * ((completedOf l).length : ℚ) / (l.length : ℚ))
    ∧ (generate_report []).scoreValue = 0 :=
  ⟨fun l => score_formula l, by simp [generate_report, score]⟩

/-- Claim C3: the qualitative tier is decided by top-down first-match
thresholds (≥ 80 EXCELLENT, else ≥ 60 GOOD, else ≥ 40 FAIR, else
NEEDS IMPROVEMENT); in particular 3 completed of 5 gives score 60 and tier
GOOD, and 2 completed of 5 gives score 40 and tier FAIR. -/
theorem claim_C3_tier_thresholds :
    (∀ q : ℚ,
      (80 ≤ q → assessment q = "EXCELLENT")
      ∧ (60 ≤ q → q < 80 → assessment q = "GOOD")
      ∧ (40 ≤ q → q < 60 → assessment q = "FAIR")
      ∧ (q < 40 → assessment q = "NEEDS IMPROVEMENT"))
    ∧ (generate_report exps35).scoreValue = 60 ∧ (generate_report exps35).tier = "GOOD"
    ∧ (generate_report exps25).scoreValue = 40 ∧ (generate_report exps25).tier = "FAIR" := by
  refine ⟨fun q => assessment_thresholds q, score_exps35, ?_, score_exps25, ?_⟩
  · rw [show (generate_report exps35).tier = assessment (score exps35) from rfl, score_exps35]
    exact (assessment_thresholds 60).2.1 (by norm_num) (by norm_num)
  · rw [show (generate_report exps25).tier = assessment (score exps25) from rfl, score_exps25]
    exact (assessment_thresholds 40).2.2.1 (by norm_num) (by norm_num)

/-- Witness for claim C3's threshold implications at concrete scores. -/
theorem claim_C3_tier_thresholds_witness :
    assessment 85 = "EXCELLENT" ∧ assessment 70 = "GOOD" ∧ assessment 45 = "FAIR"
    ∧ assessment 10 = "NEEDS IMPROVEMENT" :=
  ⟨(claim_C3_tier_thresholds.1 85).1 (by norm_num),
   (claim_C3_tier_thresholds.1 70).2.1 (by norm_num) (by norm_num),
   (claim_C3_tier_thresholds.1 45).2.2.1 (by norm_num) (by norm_num),
   (claim_C3_tier_thresholds.1 10).2.2.2 (by norm_num)⟩

/-- Claim C4: the connection saturation injector releases every session it
acquired on every exit path, so after it returns the target's
active-connection count is back at its pre-experiment value. -/
theorem claim_C4_connection_cleanup (env : SatEnv) (fw : Framework) (c k : Nat) :
    (inject_connection_saturation env fw c k).st.conns = k :=
  sat_conns_restored env fw c k

/-- Claim C5: in the random failure injector each of the 10 trials
contributes to exactly one of the success and failure counters exactly once
— `SELECT 1/0` raises before the in-branch increment on line 269, so only
the handler counts that trial — hence the counters always sum to 10. -/
theorem claim_C5_trial_count_partition (env : RandEnv) (fw : Framework) (c k : Nat) :
    (inject_random_failures env fw c k).success_count
      + (inject_random_failures env fw c k).failure_count = 10 := by
  obtain ⟨he, hc, hk2, ht, hn⟩ := randLoop_facts env 10 0 0 0 (randStart c k)
  simp only [inject_random_failures]
  omega

/-- Counterexample to claim C6: with a failing initial `connect`, the suite
produces no experiments and no report — but the process exit code is 0, not
nonzero as the claim asserts (`run_chaos_suite` returns early after `connect`
logs the error and returns `False`, and `main` then exits normally). -/
theorem claim_C6_counterexample :
    (run_chaos_suite envNoConnect).experiments = []
    ∧ (run_chaos_suite envNoConnect).report = none
    ∧ main_exit envNoConnect = 0 :=
  suite_connectFail envNoConnect rfl

/-- Claim C6 amended: if the initial connection fails, the suite run
produces no Experiment records and no report — a partial report is never
produced — but the failure is only logged: the process exits with code 0. -/
theorem claim_C6_amended (env : SuiteEnv) (h : env.connectOk = false) :
    (run_chaos_suite env).experiments = [] ∧ (run_chaos_suite env).report = none
    ∧ main_exit env = 0 :=
  suite_connectFail env h

/-- Witness for the amended claim C6 at the concrete failing-connect
environment. -/
theorem claim_C6_amended_witness :
    envNoConnect.connectOk = false
    ∧ ((run_chaos_suite envNoConnect).experiments = []
      ∧ (run_chaos_suite envNoConnect).report = none ∧ main_exit envNoConnect = 0) :=
  ⟨rfl, claim_C6_amended envNoConnect rfl⟩

/-- Counterexample to claim C7: for an always-failing target with zero-cost
probes the prober's attempt counter does reach 10, but the value the
function returns (line 316) is the elapsed time alone — here 5000 ms (ten
0.5 s sleeps) — so the attempt count is not part of the returned value,
refuting "returns both the elapsed wall-clock time and an attempt count". -/
theorem claim_C7_counterexample :
    test_recovery_time recEnvFail 0 = 5000
    ∧ recoveryAttempts recEnvFail 0 = 10
    ∧ (5000 : Nat) ≠ 10 :=
  ⟨by decide, by decide, by decide⟩

/-- Claim C7 amended: for a target whose liveness query fails on every
attempt, the prober raises no exception, its attempt counter reaches exactly
10 (the value is logged, not returned), and it returns the elapsed
wall-clock time; in general it stops on the first successful probe or when
the attempt counter reaches `max_attempts = 10`. -/
theorem claim_C7_amended :
    (∀ (env : RecEnv) (c : Nat), (∀ i, env.probeOk i = false) →
      recoveryAttempts env c = 10 ∧ test_recovery_time env c = failElapsed env 0 10)
    ∧ ∀ (env : RecEnv) (c : Nat),
        recoveryAttempts env c ≤ 10
        ∧ (recoveryAttempts env c < 10 → env.probeOk (recoveryAttempts env c) = true)
        ∧ ∀ j, j < recoveryAttempts env c → env.probeOk j = false :=
  ⟨fun env c hf => recovery_allFail env c hf, fun env c => recovery_stopping env c⟩

/-- Witness for the amended claim C7 at the concrete always-failing
environment. -/
theorem claim_C7_amended_witness :
    (∀ i, recEnvFail.probeOk i = false)
    ∧ recoveryAttempts recEnvFail 0 = 10
    ∧ test_recovery_time recEnvFail 0 = failElapsed recEnvFail 0 10 :=
  ⟨fun _ => rfl, (claim_C7_amended.1 recEnvFail 0 fun _ => rfl).1,
    (claim_C7_amended.1 recEnvFail 0 fun _ => rfl).2⟩

/-- Claim C8: the slow query injector records
degradationPercent = (latencyDuring − baselineLatency) / baselineLatency × 100
relative to the captured baseline — a 5 ms baseline and a 500 ms measured
latency yield 9900 — and when the baseline is absent the lookup raises
`KeyError` into the handler, so the experiment fails with result "failed"
and a final `Error:` observation. -/
theorem claim_C8_degradation :
    (∀ (dt1 : Nat) (m : String) (exps : List Experiment) (c k ac ts : Nat),
      (inject_slow_queries ⟨true, dt1, true, 500, m⟩ ⟨exps, some ⟨5, ac, ts⟩⟩ c k).deg
        = some 9900)
    ∧ ∀ (env : SlowEnv) (exps : List Experiment) (c k : Nat),
        (inject_slow_queries env ⟨exps, none⟩ c k).st.exp.result = some "failed"
        ∧ ∃ m, (inject_slow_queries env ⟨exps, none⟩ c k).st.exp.observations.getLast?
            = some ("Error: " ++ m) :=
  ⟨fun dt1 m exps c k ac ts => slow_deg_9900 dt1 m exps c k ac ts,
   fun env exps c k => slow_noBaseline env exps c k⟩

/-- Claim C9: two runs of the random failure injector driven by the same
random stream (same seed) and the same per-trial query outcomes produce
identical success and failure counts, whatever the framework state, clock,
connection count, or query durations. -/
theorem claim_C9_seed_determinism (e1 e2 : RandEnv) (fw1 fw2 : Framework)
    (c1 c2 k1 k2 : Nat) (hr : e1.rand = e2.rand) (hq : e1.okQuery = e2.okQuery) :
    (inject_random_failures e1 fw1 c1 k1).success_count
        = (inject_random_failures e2 fw2 c2 k2).success_count
    ∧ (inject_random_failures e1 fw1 c1 k1).failure_count
        = (inject_random_failures e2 fw2 c2 k2).failure_count := by
  have h := randLoop_counts_det e1 e2 hr hq 10 0 0 0 (randStart c1 k1) (randStart c2 k2)
  simp only [inject_random_failures]
  exact ⟨congrArg Prod.fst h, congrArg Prod.snd h⟩

/-- Witness for claim C9: two concrete environments sharing the random
stream and query outcomes but with different query durations, clocks and
connection counts. -/
theorem claim_C9_seed_determinism_witness :
    randEnvA.rand = randEnvB.rand ∧ randEnvA.okQuery = randEnvB.okQuery
    ∧ (inject_random_failures randEnvA ⟨[], none⟩ 0 0).success_count
        = (inject_random_failures randEnvB ⟨[], none⟩ 5 7).success_count
    ∧ (inject_random_failures randEnvA ⟨[], none⟩ 0 0).failure_count
        = (inject_random_failures randEnvB ⟨[], none⟩ 5 7).failure_count :=
  ⟨rfl, rfl,
    (claim_C9_seed_determinism randEnvA randEnvB ⟨[], none⟩ ⟨[], none⟩ 0 5 0 7 rfl rfl).1,
    (claim_C9_seed_determinism randEnvA randEnvB ⟨[], none⟩ ⟨[], none⟩ 0 5 0 7 rfl rfl).2⟩

/-- Claim C10: the random failure injector's Experiment always ends with
result "completed" (line 279 assigns it unconditionally), whatever the
random source does, so appending it always increases the report's completed
count by one. -/
theorem claim_C10_always_completed (env : RandEnv) (fw : Framework) (c k : Nat) :
    (inject_random_failures env fw c k).st.exp.result = some "completed"
    ∧ (completedOf (inject_random_failures env fw c k).fw.experiments).length
      = (completedOf fw.experiments).length + 1 := by
  constructor
  · simp [inject_random_failures, setEndNow, setRes, obs]
  · simp [inject_random_failures, setEndNow, setRes, obs, completedOf, List.filter_append]

end Chaos
